import Mathlib

/-!
Shallow embedding of the data-quality checks of the `dqe-automation`
repository: `src/data_quality/data_quality_validation_library.py` and
`src/connectors/file_system/parquet_reader.py`.

A pandas `DataFrame` is modelled as a list of named, typed columns together
with an explicit row count (the index length).  Scalar cell values are
modelled by `Value`; the pandas null sentinels (`NaN`, `NaT`, `None`) are
conflated into `Value.vnull`, and the int64/float64 distinction is dropped:
numeric scalars are rationals.  String content is processed through
`List Char` so that every definition evaluates by kernel reduction.
-/

namespace DQE

/-- A scalar cell value of a tabular dataset. -/
inductive Value where
| vnull : Value
| vdate (d : Int) : Value
| vnum (q : Rat) : Value
| vstr (s : String) : Value
deriving DecidableEq

/-- A pandas column dtype, reduced to the three classes the library
distinguishes (`is_datetime64_any_dtype`, `is_numeric_dtype`, and anything
else, which the library compares as strings). -/
inductive DType where
| dtDatetime : DType
| dtNumeric : DType
| dtObject : DType
deriving DecidableEq

/-- Order-embedding of `Value` used to model how pandas sorts group keys:
within one coerced column all values share a constructor, and same-constructor
values compare exactly as pandas compares them (strings by code points). -/
def Value.encode : Value → Nat ×ₗ (Int ×ₗ (Rat ×ₗ List Char))
| Value.vnull => toLex (0, toLex (0, toLex (0, [])))
| Value.vdate d => toLex (1, toLex (d, toLex (0, [])))
| Value.vnum q => toLex (2, toLex (0, toLex (q, [])))
| Value.vstr s => toLex (3, toLex (0, toLex (0, s.data)))

theorem Value.encode_injective : Function.Injective Value.encode := by
  intro a b h
  cases a <;> cases b <;>
    simp [Value.encode, Prod.ext_iff] at h ⊢ <;>
    first
    | rfl
    | exact h
    | exact String.ext h

instance : LinearOrder Value := LinearOrder.lift' Value.encode Value.encode_injective

/-- A named, typed column of a dataset. -/
structure Col where
  name : String
  dtype : DType
  values : List Value
deriving DecidableEq

/-- A pandas DataFrame: an index length plus named columns. -/
structure DataFrame where
  nRows : Nat
  cols : List Col
deriving DecidableEq

def DataFrame.getCol (df : DataFrame) (n : String) : Option Col :=
  df.cols.find? (fun c => c.name == n)

def DataFrame.hasCol (df : DataFrame) (n : String) : Bool :=
  (df.getCol n).isSome

def DataFrame.colNames (df : DataFrame) : List String :=
  df.cols.map (fun c => c.name)

def DataFrame.colValues (df : DataFrame) (n : String) : List Value :=
  ((df.getCol n).map (fun c => c.values)).getD []

def DataFrame.dtypeOf (df : DataFrame) (n : String) : DType :=
  ((df.getCol n).map (fun c => c.dtype)).getD DType.dtObject

/-- Column assignment `df[col] = series` for an existing column: the named
column is replaced in place (this mutates the frame the caller passed). -/
def DataFrame.setCol (df : DataFrame) (n : String) (dt : DType) (vs : List Value) : DataFrame :=
  { df with cols := df.cols.map (fun c => if c.name == n then ⟨c.name, dt, vs⟩ else c) }

/-- Column assignment `df[key] = scalar`: overwrites the column when present,
otherwise appends a new constant (broadcast) column of object dtype. -/
def DataFrame.assignConst (df : DataFrame) (n : String) (v : Value) : DataFrame :=
  if df.hasCol n then df.setCol n DType.dtObject (List.replicate df.nRows v)
  else { df with cols := df.cols ++ [⟨n, DType.dtObject, List.replicate df.nRows v⟩] }

/-- Structural sanity of a frame: unique column names, columns aligned with
the index length. -/
def DataFrame.wf (df : DataFrame) : Prop :=
  df.colNames.Nodup ∧ ∀ c ∈ df.cols, c.values.length = df.nRows

instance DataFrame.wfDecidable (df : DataFrame) : Decidable df.wf :=
  inferInstanceAs (Decidable (df.colNames.Nodup ∧ ∀ c ∈ df.cols, c.values.length = df.nRows))

/-- The cell of column `n` at positional index `i`. -/
def DataFrame.cell (df : DataFrame) (n : String) (i : Nat) : Value :=
  ((df.colValues n)[i]?).getD Value.vnull

/-- Row `i` projected to the listed columns. -/
def DataFrame.projRow (df : DataFrame) (names : List String) (i : Nat) : List Value :=
  names.map (fun n => df.cell n i)

/-- All rows projected to the listed columns, in index order. -/
def DataFrame.projRows (df : DataFrame) (names : List String) : List (List Value) :=
  (List.range df.nRows).map (fun i => df.projRow names i)

/-- pandas `DataFrame.empty`: true when either axis (index or columns) has
length zero. -/
def DataFrame.empty (df : DataFrame) : Bool :=
  df.nRows == 0 || df.cols.isEmpty

/-- Decimal reading of a character list: `none` when empty or any character
is not a digit. -/
def charsToNat (cs : List Char) : Option Nat :=
  if cs.isEmpty then none
  else cs.foldl (fun acc c =>
    match acc with
    | none => none
    | some n => if c.isDigit then some (n * 10 + (c.toNat - '0'.toNat)) else none) (some 0)

/-- Splitting a character list on a separator (keeps empty chunks, like the
Python `str.split`). -/
def splitOnChar (sep : Char) : List Char → List (List Char)
| [] => [[]]
| c :: cs =>
  let rest := splitOnChar sep cs
  if c == sep then [] :: rest
  else
    match rest with
    | [] => [[c]]
    | g :: gs => (c :: g) :: gs

/-- Restriction of the `pd.to_datetime` string parser to ISO `YYYY-MM-DD`
(and `YYYY-MM`, which pandas reads as the first day of the month); the
timestamp is encoded injectively as y*10000 + m*100 + d. -/
def parseDateChars (cs : List Char) : Option Int :=
  match (splitOnChar '-' cs).map charsToNat with
  | [some y, some m] =>
    if 1 ≤ m ∧ m ≤ 12 then some ((y * 10000 + m * 100 + 1 : Nat) : Int) else none
  | [some y, some m, some d] =>
    if 1 ≤ m ∧ m ≤ 12 ∧ 1 ≤ d ∧ d ≤ 31 then some ((y * 10000 + m * 100 + d : Nat) : Int)
    else none
  | _ => none

/-- Unsigned part of the `pd.to_numeric` string parser: integer or plain
decimal literals. -/
def parseNumCharsPos (cs : List Char) : Option Rat :=
  match splitOnChar '.' cs with
  | [a] => (charsToNat a).map (fun n => (n : Rat))
  | [a, b] =>
    match charsToNat a, charsToNat b with
    | some n, some f => some ((n : Rat) + mkRat f (10 ^ b.length))
    | _, _ => none
  | _ => none

/-- Restriction of the `pd.to_numeric` string parser to integer and plain
decimal literals with an optional leading minus. -/
def parseNumChars : List Char → Option Rat
| '-' :: cs => (parseNumCharsPos cs).map Neg.neg
| cs => parseNumCharsPos cs

/-- The common comparison representation chosen per column. -/
inductive CompType where
| ctDatetime : CompType
| ctNumeric : CompType
| ctText : CompType
deriving DecidableEq

/-- Comparison-type selection of `check_data_full_data_set` (lines 83-93):
datetime when either column is datetime-typed, else numeric when either is
numeric-typed, else text. -/
def chooseCompType (t1 t2 : DType) : CompType :=
  if t1 = DType.dtDatetime ∨ t2 = DType.dtDatetime then CompType.ctDatetime
  else if t1 = DType.dtNumeric ∨ t2 = DType.dtNumeric then CompType.ctNumeric
  else CompType.ctText

/-- The dtype a coerced column ends up with. -/
def resultDType : CompType → DType
| CompType.ctDatetime => DType.dtDatetime
| CompType.ctNumeric => DType.dtNumeric
| CompType.ctText => DType.dtObject

/-- Value-level `pd.to_datetime(x, errors=coerce)`: dates pass through,
strings are parsed, and every failed parse (together with inputs such as raw
numbers, which the compared datasets never hold under a datetime dtype)
becomes the null sentinel, never an error. -/
def coerceDatetime : Value → Value
| Value.vdate d => Value.vdate d
| Value.vstr s =>
  match parseDateChars s.data with
  | some d => Value.vdate d
  | none => Value.vnull
| _ => Value.vnull

/-- Value-level `pd.to_numeric(x, errors=coerce)`: numbers pass through,
strings are parsed, and every failed parse becomes the null sentinel. -/
def coerceNumeric : Value → Value
| Value.vnum q => Value.vnum q
| Value.vstr s =>
  match parseNumChars s.data with
  | some q => Value.vnum q
  | none => Value.vnull
| _ => Value.vnull

/-- Python rendering used by `astype(str)`.  Strings pass through unchanged;
the exact spelling chosen for non-string scalars approximates Python (it is
applied identically to both frames, and no claim compares it to anything
else). -/
def pyStr : Value → String
| Value.vstr s => s
| Value.vnull => "nan"
| Value.vnum q =>
  if q.den = 1 then toString q.num else toString q.num ++ "/" ++ toString q.den
| Value.vdate d => "ts " ++ toString d

/-- The coercion applied to both sides for a chosen comparison type. -/
def coerceVal : CompType → Value → Value
| CompType.ctDatetime, v => coerceDatetime v
| CompType.ctNumeric, v => coerceNumeric v
| CompType.ctText, v => Value.vstr (pyStr v)

/-- Failure modes of `check_data_full_data_set`: the `ValueError` for a
column missing from df2, the pandas `KeyError` when the column is then read
from df1, and the final `AssertionError` carrying the grouped diff report. -/
inductive FullSetError where
| missingInDf2 (col : String) : FullSetError
| keyErrorDf1 (col : String) : FullSetError
| mismatch (groups : List (List Value × Nat)) : FullSetError
deriving DecidableEq

/-- Schema errors are the ones raised by the type-alignment loop before any
row-level comparison: a requested column absent from one of the frames. -/
def FullSetError.isSchema : FullSetError → Bool
| FullSetError.mismatch _ => false
| _ => true

/-- The per-column type-alignment loop of `check_data_full_data_set`
(lines 79-93): for each requested column, check membership in df2 (raising
a ValueError otherwise), read the column of df1 (pandas KeyError when it is
absent), select the common comparison type from the two dtypes, and write
the coerced columns back into BOTH frames in place. -/
def alignLoop : List String → DataFrame → DataFrame → Option FullSetError × DataFrame × DataFrame
| [], d1, d2 => (none, d1, d2)
| c :: rest, d1, d2 =>
  if d2.hasCol c then
    if d1.hasCol c then
      let t := chooseCompType (d1.dtypeOf c) (d2.dtypeOf c)
      alignLoop rest
        (d1.setCol c (resultDType t) ((d1.colValues c).map (coerceVal t)))
        (d2.setCol c (resultDType t) ((d2.colValues c).map (coerceVal t)))
    else (some (FullSetError.keyErrorDf1 c), d1, d2)
  else (some (FullSetError.missingInDf2 c), d1, d2)

/-- pandas `groupby(keys).size().reset_index(name=count)`: one output row per
distinct key tuple, key tuples containing a null dropped (the groupby
`dropna` default), keys sorted ascending (the groupby `sort` default), each
carrying its occurrence count. -/
def groupCount (rows : List (List Value)) : List (List Value × Nat) :=
  let keys := rows.dedup.filter (fun k => decide (Value.vnull ∉ k))
  (keys.insertionSort (fun a b => a ≤ b)).map (fun k => (k, rows.count k))

/-- Python `subset_columns or df1.columns.tolist()`: an empty or missing
subset falls back to all columns of df1. -/
def resolveColumns (df1 : DataFrame) (subset : Option (List String)) : List String :=
  match subset with
  | none => df1.colNames
  | some l => if l.isEmpty then df1.colNames else l

/-- `check_data_full_data_set` (lines 61-111).  Returns the verdict together
with the post-call states of the two input frames (the Python function
coerces the columns of the frames the caller passed, in place).  The
row-level part mirrors the two left merges with `_merge == left_only`: a
projected row of one frame joins the diff when its tuple appears nowhere in
the other frame, each occurrence once, tagged with its provenance label. -/
def check_data_full_data_set (df1 df2 : DataFrame) (subset_columns : Option (List String)) :
    Except FullSetError Unit × DataFrame × DataFrame :=
  let columns := resolveColumns df1 subset_columns
  match alignLoop columns df1 df2 with
  | (some e, d1, d2) => (Except.error e, d1, d2)
  | (none, d1, d2) =>
    let proj1 := d1.projRows columns
    let proj2 := d2.projRows columns
    let diff1 := (proj1.filter (fun r => decide (r ∉ proj2))).map
      (fun r => r ++ [Value.vstr "in source not in target"])
    let diff2 := (proj2.filter (fun r => decide (r ∉ proj1))).map
      (fun r => r ++ [Value.vstr "in target not in source"])
    let differences := diff1 ++ diff2
    if differences.isEmpty then (Except.ok (), d1, d2)
    else (Except.error (FullSetError.mismatch (groupCount differences)), d1, d2)

/-- `check_count` (lines 56-58): equal index lengths, the error carrying the
two lengths. -/
def check_count (df1 df2 : DataFrame) : Except (Nat × Nat) Unit :=
  if df1.nRows = df2.nRows then Except.ok () else Except.error (df1.nRows, df2.nRows)

/-- `check_dataset_is_not_empty` (lines 113-116): asserts `not df.empty`. -/
def check_dataset_is_not_empty (df : DataFrame) : Except String Unit :=
  if df.empty then Except.error "DataFrame is empty" else Except.ok ()

/-- Failure modes of `check_duplicates`: the pandas KeyError for a subset
column absent from the frame, and the `AssertionError` carrying the
duplicate groups with counts. -/
inductive DupError where
| keyError (col : String) : DupError
| duplicates (groups : List (List Value × Nat)) : DupError
deriving DecidableEq

/-- Descending-by-count order used by `sort_values(count, ascending=False)`. -/
def countGe (a b : List Value × Nat) : Prop := b.2 ≤ a.2

instance : DecidableRel countGe := fun a b => Nat.decLe b.2 a.2

instance : IsTotal (List Value × Nat) countGe := ⟨fun a b => Nat.le_total b.2 a.2⟩

instance : IsTrans (List Value × Nat) countGe := ⟨fun _ _ _ h1 h2 => Nat.le_trans h2 h1⟩

/-- Common body of the two branches of `check_duplicates` (lines 26-53):
`df.duplicated(keep=False)` marks every occurrence of a tuple that appears
more than once over the given columns (the full-row branch passes all
columns); the kept rows are grouped with counts and sorted descending by
count.  When a subset column is absent, `duplicated` raises a KeyError. -/
def dupBranch (df : DataFrame) (cols : List String) : Except DupError Unit :=
  match cols.find? (fun c => !df.hasCol c) with
  | some c => Except.error (DupError.keyError c)
  | none =>
    let proj := df.projRows cols
    let dups := proj.filter (fun r => decide (1 < proj.count r))
    if dups.isEmpty then Except.ok ()
    else Except.error (DupError.duplicates ((groupCount dups).insertionSort countGe))

/-- `check_duplicates` (lines 14-53): full-row mode when `column_names` is
None or an empty list (Python falsiness), subset mode otherwise. -/
def check_duplicates (df : DataFrame) (column_names : Option (List String)) :
    Except DupError Unit :=
  match column_names with
  | some l => if l.isEmpty then dupBranch df df.colNames else dupBranch df l
  | none => dupBranch df df.colNames

/-- `check_not_null_values` (lines 118-125): the listed columns (or the whole
frame) must contain no nulls. -/
def check_not_null_values (df : DataFrame) (column_names : Option (List String)) :
    Except String Unit :=
  match column_names with
  | some l =>
    match l.find? (fun c => Value.vnull ∈ (df.colValues c)) with
    | some c => Except.error c
    | none => Except.ok ()
  | none =>
    if df.cols.any (fun c => Value.vnull ∈ c.values) then Except.error "DataFrame"
    else Except.ok ()

/-- A per-column rule set of `check_column_validity`: the four recognised
keys `min`, `max`, `allowed_values` and `condition`. -/
structure ColumnRule where
  min? : Option Value := none
  max? : Option Value := none
  allowed_values? : Option (List Value) := none
  condition? : Option (Value → Bool) := none

/-- pandas elementwise `<` used by the min/max rules: comparisons involving
a null are false (NaN semantics); same-constructor scalars compare normally
(strings by code points).  Cross-type comparisons, which raise in pandas and
do not occur for rule sets typed like their column, are modelled as false. -/
def vLt : Value → Value → Bool
| Value.vnum a, Value.vnum b => decide (a < b)
| Value.vdate a, Value.vdate b => decide (a < b)
| Value.vstr a, Value.vstr b => decide (a.data < b.data)
| _, _ => false

/-- The invalid mask of one column (lines 184-198): a value is invalid when
it fails ANY active rule, i.e. the per-rule masks are ORed. -/
def ruleInvalid (rule : ColumnRule) (v : Value) : Bool :=
  (match rule.min? with | some m => vLt v m | none => false)
  || (match rule.max? with | some m => vLt m v | none => false)
  || (match rule.allowed_values? with | some vs => decide (v ∉ vs) | none => false)
  || (match rule.condition? with | some f => !f v | none => false)

/-- Failure modes of `check_column_validity`: the pandas KeyError for a rule
column absent from the frame, and the `AssertionError` carrying the invalid
records, one per (row, violating column) pair, tagged with the column. -/
inductive CVError where
| keyError (col : String) : CVError
| invalid (records : List (Nat × Value × String)) : CVError
deriving DecidableEq

/-- The records `df.loc[invalid_mask, [column]].assign(invalid_column=column)`
collects for one column: one (index, value, column) triple per flagged row,
in index order. -/
def flaggedRecords (df : DataFrame) (c : String) (rule : ColumnRule) :
    List (Nat × Value × String) :=
  ((List.range df.nRows).filter (fun i => ruleInvalid rule (df.cell c i))).map
    (fun i => (i, df.cell c i, c))

/-- The rule loop of `check_column_validity` (lines 183-204): columns are
processed in mapping order, a missing column raises at once, and the flagged
records of each column are appended. -/
def cvLoop (df : DataFrame) : List (String × ColumnRule) → List (Nat × Value × String) →
    Except CVError (List (Nat × Value × String))
| [], acc => Except.ok acc
| (c, rule) :: rest, acc =>
  if df.hasCol c then cvLoop df rest (acc ++ flaggedRecords df c rule)
  else Except.error (CVError.keyError c)

/-- `pd.DataFrame(columns=df.columns)`: a zero-row frame with the same column
names and object dtype. -/
def DataFrame.emptyLike (df : DataFrame) : DataFrame :=
  ⟨0, df.cols.map (fun c => ⟨c.name, DType.dtObject, []⟩)⟩

/-- `check_column_validity` (lines 128-214). -/
def check_column_validity (df : DataFrame) (column_rules : List (String × ColumnRule)) :
    Except CVError DataFrame :=
  match cvLoop df column_rules [] with
  | Except.error e => Except.error e
  | Except.ok recs =>
    if recs.isEmpty then Except.ok df.emptyLike
    else Except.error (CVError.invalid recs)

/-- One `os.walk` entry: the visited directory, the segments of its path
relative to the walk root (empty when the entry is the root itself), and the
plain file names it contains. -/
structure WalkEntry where
  root : String
  relSegments : List String
  files : List String
deriving DecidableEq

/-- The filesystem and parquet codec `ParquetReader.process` interacts with,
abstracted as explicit data. -/
structure FileSystem where
  pathExists : String → Bool
  isFile : String → Bool
  isDir : String → Bool
  walk : String → List WalkEntry
  readParquet : String → Except String DataFrame
  joinPath : String → String → String

/-- Failure modes of `ParquetReader.process`: `FileNotFoundError`, the two
`RuntimeError` cases (failed read, no matching file), and the `ValueError`
for a path that is neither file nor directory. -/
inductive PqError where
| notFound (path : String) : PqError
| readFail (path : String) (msg : String) : PqError
| noFiles (path : String) : PqError
| notFileOrDir (path : String) : PqError
deriving DecidableEq

/-- `file.endswith((".parquet", ".pq"))`. -/
def isParquetName (f : String) : Bool :=
  ".parquet".data.isSuffixOf f.data || ".pq".data.isSuffixOf f.data

/-- Python `part.split("=", 1)` guarded by `"=" in part`. -/
def splitKeyValue (part : String) : Option (String × String) :=
  match splitOnChar '=' part.data with
  | k :: v1 :: rest => some (String.mk k, String.mk (List.intercalate ['='] (v1 :: rest)))
  | _ => none

/-- Partition-column inference (lines 40-46): every `key=value` segment of
the relative path becomes a constant column. -/
def addPartitionCols (df : DataFrame) (segments : List String) : DataFrame :=
  segments.foldl (fun d part =>
    match splitKeyValue part with
    | some (k, v) => d.assignConst k (Value.vstr v)
    | none => d) df

/-- The inner file loop of the directory branch: matching files are read
(the first failure aborts with a RuntimeError), partition columns added, and
the frame appended. -/
def readEntryFiles (fs : FileSystem) (e : WalkEntry) :
    List String → List DataFrame → Except PqError (List DataFrame)
| [], dfs => Except.ok dfs
| f :: restF, dfs =>
  if isParquetName f then
    match fs.readParquet (fs.joinPath e.root f) with
    | Except.error msg => Except.error (PqError.readFail (fs.joinPath e.root f) msg)
    | Except.ok df => readEntryFiles fs e restF (dfs ++ [addPartitionCols df e.relSegments])
  else readEntryFiles fs e restF dfs

/-- The outer `os.walk` loop of the directory branch. -/
def readWalk (fs : FileSystem) : List WalkEntry → List DataFrame → Except PqError (List DataFrame)
| [], dfs => Except.ok dfs
| e :: rest, dfs =>
  match readEntryFiles fs e e.files dfs with
  | Except.error err => Except.error err
  | Except.ok dfs2 => readWalk fs rest dfs2

/-- pandas `pd.concat(dfs, ignore_index=True)`: union of the columns in order
of first appearance, missing stretches filled with nulls; the dtype is taken
from the first frame holding the column (pandas promotes mixed dtypes, which
no claim observes). -/
def concatFrames (dfs : List DataFrame) : DataFrame :=
  let names := (dfs.flatMap (fun d => d.colNames)).dedup
  { nRows := (dfs.map (fun d => d.nRows)).sum,
    cols := names.map (fun n =>
      { name := n,
        dtype := ((dfs.find? (fun d => d.hasCol n)).map (fun d => d.dtypeOf n)).getD
          DType.dtObject,
        values := dfs.flatMap (fun d =>
          if d.hasCol n then d.colValues n else List.replicate d.nRows Value.vnull) }) }

/-- `ParquetReader.process` (lines 10-55). -/
def ParquetReader.process (fs : FileSystem) (path : String) : Except PqError DataFrame :=
  if fs.pathExists path then
    if fs.isFile path then
      match fs.readParquet path with
      | Except.error msg => Except.error (PqError.readFail path msg)
      | Except.ok df => Except.ok (concatFrames [df])
    else if fs.isDir path then
      match readWalk fs (fs.walk path) [] with
      | Except.error err => Except.error err
      | Except.ok dfs =>
        if dfs.isEmpty then Except.error (PqError.noFiles path)
        else Except.ok (concatFrames dfs)
    else Except.error (PqError.notFileOrDir path)
  else Except.error (PqError.notFound path)

/-! ### Basic lemmas about frame operations -/

theorem find?_map_name_preserving (f : Col → Col) (hf : ∀ c, (f c).name = c.name)
    (n : String) : ∀ l : List Col,
    (l.map f).find? (fun c => c.name == n) = (l.find? (fun c => c.name == n)).map f := by
  intro l
  induction l with
  | nil => rfl
  | cons c cs ih =>
    simp only [List.map_cons, List.find?_cons, hf]
    cases h : (c.name == n) with
    | true => rfl
    | false => exact ih

theorem getCol_setCol (df : DataFrame) (n m : String) (dt : DType) (vs : List Value) :
    (df.setCol n dt vs).getCol m =
      (df.getCol m).map (fun c => if c.name == n then ⟨c.name, dt, vs⟩ else c) := by
  unfold DataFrame.setCol DataFrame.getCol
  exact find?_map_name_preserving _ (fun c => by split <;> rfl) m df.cols

theorem name_of_getCol {df : DataFrame} {n : String} {c : Col}
    (h : df.getCol n = some c) : c.name = n := by
  have := List.find?_some h
  simpa using this

theorem mem_of_getCol {df : DataFrame} {n : String} {c : Col}
    (h : df.getCol n = some c) : c ∈ df.cols :=
  List.mem_of_find?_eq_some h

theorem getCol_setCol_same {df : DataFrame} {n : String} (dt : DType) (vs : List Value)
    (h : df.hasCol n = true) : (df.setCol n dt vs).getCol n = some ⟨n, dt, vs⟩ := by
  unfold DataFrame.hasCol at h
  rcases Option.isSome_iff_exists.mp h with ⟨c, hc⟩
  rw [getCol_setCol, hc]
  have hn := name_of_getCol hc
  simp [hn]

theorem getCol_setCol_other {df : DataFrame} {n m : String} (dt : DType) (vs : List Value)
    (h : m ≠ n) : (df.setCol n dt vs).getCol m = df.getCol m := by
  rw [getCol_setCol]
  cases hc : df.getCol m with
  | none => rfl
  | some c =>
    have hn := name_of_getCol hc
    have hne : ¬ ((c.name == n) = true) := fun hcn => h (hn ▸ eq_of_beq hcn)
    simp [hne]
    intro hcn
    exact absurd (beq_of_eq hcn) hne

theorem colNames_setCol (df : DataFrame) (n : String) (dt : DType) (vs : List Value) :
    (df.setCol n dt vs).colNames = df.colNames := by
  unfold DataFrame.colNames DataFrame.setCol
  rw [List.map_map]
  apply List.map_congr_left
  intro c _
  dsimp only [Function.comp]
  split <;> rfl

theorem nRows_setCol (df : DataFrame) (n : String) (dt : DType) (vs : List Value) :
    (df.setCol n dt vs).nRows = df.nRows := rfl

theorem hasCol_setCol (df : DataFrame) (n m : String) (dt : DType) (vs : List Value) :
    (df.setCol n dt vs).hasCol m = df.hasCol m := by
  unfold DataFrame.hasCol
  rw [getCol_setCol]
  cases df.getCol m <;> rfl

theorem colValues_setCol_same {df : DataFrame} {n : String} (dt : DType) (vs : List Value)
    (h : df.hasCol n = true) : (df.setCol n dt vs).colValues n = vs := by
  unfold DataFrame.colValues
  rw [getCol_setCol_same dt vs h]
  rfl

theorem colValues_setCol_other {df : DataFrame} {n m : String} (dt : DType) (vs : List Value)
    (h : m ≠ n) : (df.setCol n dt vs).colValues m = df.colValues m := by
  unfold DataFrame.colValues
  rw [getCol_setCol_other dt vs h]

theorem dtypeOf_setCol_same {df : DataFrame} {n : String} (dt : DType) (vs : List Value)
    (h : df.hasCol n = true) : (df.setCol n dt vs).dtypeOf n = dt := by
  unfold DataFrame.dtypeOf
  rw [getCol_setCol_same dt vs h]
  rfl

theorem dtypeOf_setCol_other {df : DataFrame} {n m : String} (dt : DType) (vs : List Value)
    (h : m ≠ n) : (df.setCol n dt vs).dtypeOf m = df.dtypeOf m := by
  unfold DataFrame.dtypeOf
  rw [getCol_setCol_other dt vs h]

theorem colValues_length_of_wf {df : DataFrame} {n : String} (hw : df.wf)
    (h : df.hasCol n = true) : (df.colValues n).length = df.nRows := by
  unfold DataFrame.hasCol at h
  rcases Option.isSome_iff_exists.mp h with ⟨c, hc⟩
  unfold DataFrame.colValues
  rw [hc]
  exact hw.2 c (mem_of_getCol hc)

theorem find?_name_of_mem : ∀ (l : List Col), (l.map (fun c => c.name)).Nodup →
    ∀ c ∈ l, l.find? (fun x => x.name == c.name) = some c := by
  intro l
  induction l with
  | nil => intro _ c hc; cases hc
  | cons h t ih =>
    intro hnd c hc
    rw [List.map_cons, List.nodup_cons] at hnd
    rcases List.mem_cons.mp hc with rfl | hmem
    · simp [List.find?_cons]
    · have hne : (h.name == c.name) = false := by
        apply beq_false_of_ne
        intro he
        exact hnd.1 (he ▸ List.mem_map_of_mem (fun x => x.name) hmem)
      simp only [List.find?_cons, hne]
      exact ih hnd.2 c hmem

theorem getCol_eq_of_mem {df : DataFrame} (hnd : df.colNames.Nodup) {c : Col}
    (hc : c ∈ df.cols) : df.getCol c.name = some c :=
  find?_name_of_mem df.cols hnd c hc

theorem setCol_self {df : DataFrame} (hnd : df.colNames.Nodup) {c : Col}
    (hc : c ∈ df.cols) : df.setCol c.name c.dtype c.values = df := by
  unfold DataFrame.setCol
  have h2 : ∀ x ∈ df.cols,
      (if x.name == c.name then (⟨x.name, c.dtype, c.values⟩ : Col) else x) = id x := by
    intro x hx
    by_cases hxc : x.name = c.name
    · have hxeq : x = c := by
        have h1 := getCol_eq_of_mem hnd hx
        have hcc := getCol_eq_of_mem hnd hc
        rw [hxc] at h1
        rw [h1] at hcc
        exact Option.some.inj hcc
      subst hxeq
      simp
    · simp [beq_false_of_ne hxc]
  rw [List.map_congr_left h2, List.map_id]

/-! ### The type-alignment loop -/

/-- The comparison type `check_data_full_data_set` selects for one column. -/
def coercionFor (d1 d2 : DataFrame) (c : String) : CompType :=
  chooseCompType (d1.dtypeOf c) (d2.dtypeOf c)

theorem alignLoop_no_error : ∀ (cs : List String) (d1 d2 : DataFrame),
    (∀ c ∈ cs, d1.hasCol c = true) → (∀ c ∈ cs, d2.hasCol c = true) → cs.Nodup →
    ∃ d1' d2', alignLoop cs d1 d2 = (none, d1', d2') ∧
      d1'.colNames = d1.colNames ∧ d2'.colNames = d2.colNames ∧
      d1'.nRows = d1.nRows ∧ d2'.nRows = d2.nRows ∧
      (∀ c, c ∉ cs → d1'.colValues c = d1.colValues c ∧ d2'.colValues c = d2.colValues c ∧
        d1'.dtypeOf c = d1.dtypeOf c ∧ d2'.dtypeOf c = d2.dtypeOf c) ∧
      (∀ c ∈ cs,
        d1'.colValues c = (d1.colValues c).map (coerceVal (coercionFor d1 d2 c)) ∧
        d2'.colValues c = (d2.colValues c).map (coerceVal (coercionFor d1 d2 c)) ∧
        d1'.dtypeOf c = resultDType (coercionFor d1 d2 c) ∧
        d2'.dtypeOf c = resultDType (coercionFor d1 d2 c)) := by
  intro cs
  induction cs with
  | nil =>
    intro d1 d2 _ _ _
    exact ⟨d1, d2, rfl, rfl, rfl, rfl, rfl,
      fun c _ => ⟨rfl, rfl, rfl, rfl⟩,
      fun c hc => absurd hc (List.not_mem_nil c)⟩
  | cons c rest ih =>
    intro d1 d2 h1 h2 hnd
    have hc1 : d1.hasCol c = true := h1 c (List.mem_cons_self c rest)
    have hc2 : d2.hasCol c = true := h2 c (List.mem_cons_self c rest)
    rw [List.nodup_cons] at hnd
    obtain ⟨d1', d2', heq, hn1, hn2, hr1, hr2, hout, hin⟩ :=
      ih (d1.setCol c (resultDType (coercionFor d1 d2 c))
            ((d1.colValues c).map (coerceVal (coercionFor d1 d2 c))))
         (d2.setCol c (resultDType (coercionFor d1 d2 c))
            ((d2.colValues c).map (coerceVal (coercionFor d1 d2 c))))
         (fun x hx => by rw [hasCol_setCol]; exact h1 x (List.mem_cons_of_mem c hx))
         (fun x hx => by rw [hasCol_setCol]; exact h2 x (List.mem_cons_of_mem c hx))
         hnd.2
    refine ⟨d1', d2', ?_, ?_, ?_, ?_, ?_, ?_, ?_⟩
    · rw [alignLoop, if_pos hc2, if_pos hc1]
      exact heq
    · rw [hn1, colNames_setCol]
    · rw [hn2, colNames_setCol]
    · rw [hr1, nRows_setCol]
    · rw [hr2, nRows_setCol]
    · intro x hx
      have hxc : x ≠ c := fun hxe => hx (hxe ▸ List.mem_cons_self c rest)
      have hxr : x ∉ rest := fun hxe => hx (List.mem_cons_of_mem c hxe)
      obtain ⟨e1, e2, e3, e4⟩ := hout x hxr
      exact ⟨by rw [e1, colValues_setCol_other _ _ hxc],
        by rw [e2, colValues_setCol_other _ _ hxc],
        by rw [e3, dtypeOf_setCol_other _ _ hxc],
        by rw [e4, dtypeOf_setCol_other _ _ hxc]⟩
    · intro x hx
      rcases List.mem_cons.mp hx with rfl | hxr
      · obtain ⟨e1, e2, e3, e4⟩ := hout x hnd.1
        exact ⟨by rw [e1, colValues_setCol_same _ _ hc1],
          by rw [e2, colValues_setCol_same _ _ hc2],
          by rw [e3, dtypeOf_setCol_same _ _ hc1],
          by rw [e4, dtypeOf_setCol_same _ _ hc2]⟩
      · have hxc : x ≠ c := fun hxe => hnd.1 (hxe ▸ hxr)
        obtain ⟨e1, e2, e3, e4⟩ := hin x hxr
        have hcf : coercionFor
            (d1.setCol c (resultDType (coercionFor d1 d2 c))
              ((d1.colValues c).map (coerceVal (coercionFor d1 d2 c))))
            (d2.setCol c (resultDType (coercionFor d1 d2 c))
              ((d2.colValues c).map (coerceVal (coercionFor d1 d2 c)))) x
            = coercionFor d1 d2 x := by
          unfold coercionFor
          rw [dtypeOf_setCol_other _ _ hxc, dtypeOf_setCol_other _ _ hxc]
        rw [hcf] at e1 e2 e3 e4
        rw [colValues_setCol_other _ _ hxc] at e1
        rw [colValues_setCol_other _ _ hxc] at e2
        exact ⟨e1, e2, e3, e4⟩

theorem alignLoop_schema_of_some : ∀ (cs : List String) (d1 d2 : DataFrame) (e : FullSetError)
    (d1' d2' : DataFrame), alignLoop cs d1 d2 = (some e, d1', d2') → e.isSchema = true := by
  intro cs
  induction cs with
  | nil =>
    intro d1 d2 e d1' d2' h
    rw [alignLoop] at h
    exact absurd (congrArg Prod.fst h) (by simp)
  | cons c rest ih =>
    intro d1 d2 e d1' d2' h
    rw [alignLoop] at h
    by_cases hc2 : d2.hasCol c = true
    · rw [if_pos hc2] at h
      by_cases hc1 : d1.hasCol c = true
      · rw [if_pos hc1] at h
        exact ih _ _ _ _ _ h
      · rw [if_neg hc1] at h
        have : FullSetError.keyErrorDf1 c = e := by
          have := congrArg Prod.fst h
          simpa using this
        rw [← this]
        rfl
    · rw [if_neg hc2] at h
      have : FullSetError.missingInDf2 c = e := by
        have := congrArg Prod.fst h
        simpa using this
      rw [← this]
      rfl

theorem alignLoop_error_of_missing : ∀ (cs : List String) (d1 d2 : DataFrame),
    (∃ c ∈ cs, d1.hasCol c = false ∨ d2.hasCol c = false) →
    ∃ e d1' d2', alignLoop cs d1 d2 = (some e, d1', d2') ∧ e.isSchema = true := by
  intro cs
  induction cs with
  | nil =>
    intro d1 d2 h
    obtain ⟨c, hc, _⟩ := h
    exact absurd hc (List.not_mem_nil c)
  | cons c rest ih =>
    intro d1 d2 h
    by_cases hc2 : d2.hasCol c = true
    · by_cases hc1 : d1.hasCol c = true
      · have hrest : ∃ x ∈ rest, d1.hasCol x = false ∨ d2.hasCol x = false := by
          obtain ⟨x, hx, hmiss⟩ := h
          rcases List.mem_cons.mp hx with rfl | hxr
          · rcases hmiss with h1 | h2
            · rw [hc1] at h1; cases h1
            · rw [hc2] at h2; cases h2
          · exact ⟨x, hxr, hmiss⟩
        obtain ⟨x, hx, hmiss⟩ := hrest
        obtain ⟨e, d1', d2', heq, hschema⟩ := ih
          (d1.setCol c (resultDType (coercionFor d1 d2 c))
            ((d1.colValues c).map (coerceVal (coercionFor d1 d2 c))))
          (d2.setCol c (resultDType (coercionFor d1 d2 c))
            ((d2.colValues c).map (coerceVal (coercionFor d1 d2 c))))
          ⟨x, hx, by rwa [hasCol_setCol, hasCol_setCol]⟩
        refine ⟨e, d1', d2', ?_, hschema⟩
        rw [alignLoop, if_pos hc2, if_pos hc1]
        exact heq
      · refine ⟨FullSetError.keyErrorDf1 c, d1, d2, ?_, rfl⟩
        rw [alignLoop, if_pos hc2, if_neg hc1]
    · refine ⟨FullSetError.missingInDf2 c, d1, d2, ?_, rfl⟩
      rw [alignLoop, if_neg hc2]

/-! ### Projection lemmas -/

theorem projRows_length (df : DataFrame) (cols : List String) :
    (df.projRows cols).length = df.nRows := by
  unfold DataFrame.projRows
  rw [List.length_map, List.length_range]

theorem cell_of_mapped {d d' : DataFrame} {c : String} {F : Value → Value}
    (hv : d'.colValues c = (d.colValues c).map F)
    (hlen : (d.colValues c).length = d.nRows) {i : Nat} (hi : i < d.nRows) :
    d'.cell c i = F (d.cell c i) := by
  unfold DataFrame.cell
  rw [hv, List.getElem?_map]
  cases hg : (d.colValues c)[i]? with
  | none =>
    rw [List.getElem?_eq_none_iff, hlen] at hg
    omega
  | some v => rfl

theorem projRows_of_mapped {d d' : DataFrame} {cols : List String} {F : String → Value → Value}
    (hn : d'.nRows = d.nRows)
    (hv : ∀ c ∈ cols, d'.colValues c = (d.colValues c).map (F c))
    (hl : ∀ c ∈ cols, (d.colValues c).length = d.nRows) :
    d'.projRows cols = (d.projRows cols).map (fun r => List.zipWith F cols r) := by
  unfold DataFrame.projRows
  rw [hn, List.map_map]
  apply List.map_congr_left
  intro i hi
  rw [List.mem_range] at hi
  unfold DataFrame.projRow
  dsimp only [Function.comp]
  rw [List.zipWith_map_right, List.zipWith_same]
  apply List.map_congr_left
  intro c hc
  exact cell_of_mapped (hv c hc) (hl c hc) hi

/-! ### Verdict shape of the full-dataset check -/

theorem fullset_ok_of_filters_nil (df1 df2 : DataFrame) (subset : Option (List String))
    {d1' d2' : DataFrame}
    (heq : alignLoop (resolveColumns df1 subset) df1 df2 = (none, d1', d2'))
    (hf1 : (d1'.projRows (resolveColumns df1 subset)).filter
        (fun r => decide (r ∉ d2'.projRows (resolveColumns df1 subset))) = [])
    (hf2 : (d2'.projRows (resolveColumns df1 subset)).filter
        (fun r => decide (r ∉ d1'.projRows (resolveColumns df1 subset))) = []) :
    (check_data_full_data_set df1 df2 subset).1 = Except.ok () := by
  have h1 : ∀ a ∈ d1'.projRows (resolveColumns df1 subset),
      a ∈ d2'.projRows (resolveColumns df1 subset) := by
    intro a ha
    have h := List.filter_eq_nil_iff.mp hf1 a ha
    simpa using h
  have h2 : ∀ a ∈ d2'.projRows (resolveColumns df1 subset),
      a ∈ d1'.projRows (resolveColumns df1 subset) := by
    intro a ha
    have h := List.filter_eq_nil_iff.mp hf2 a ha
    simpa using h
  simp [check_data_full_data_set, heq]
  rw [if_pos (And.intro h1 h2)]

theorem fullset_mismatch_groupCount (df1 df2 : DataFrame) (subset : Option (List String))
    (gs : List (List Value × Nat))
    (h : (check_data_full_data_set df1 df2 subset).1 = Except.error (FullSetError.mismatch gs)) :
    ∃ rows, gs = groupCount rows := by
  rcases halign : alignLoop (resolveColumns df1 subset) df1 df2 with ⟨oe, d1', d2'⟩
  cases oe with
  | some e =>
    have hs := alignLoop_schema_of_some _ df1 df2 e d1' d2' halign
    simp only [check_data_full_data_set, halign] at h
    injection h with he
    subst he
    simp [FullSetError.isSchema] at hs
  | none =>
    simp only [check_data_full_data_set, halign] at h
    split at h
    · exact absurd h (by simp)
    · simp only [Except.error.injEq, FullSetError.mismatch.injEq] at h
      exact ⟨_, h.symm⟩

/-! ### Grouping lemmas -/

theorem groupCount_fst_sorted (rows : List (List Value)) :
    List.Sorted (fun a b => a ≤ b) ((groupCount rows).map Prod.fst) := by
  unfold groupCount
  rw [List.map_map]
  have hcomp : (Prod.fst ∘ fun k => (k, rows.count k)) = id := rfl
  rw [hcomp, List.map_id]
  exact List.sorted_insertionSort _ _

theorem mem_groupCount {rows : List (List Value)} {k : List Value} {n : Nat} :
    (k, n) ∈ groupCount rows ↔ (k ∈ rows ∧ Value.vnull ∉ k ∧ n = rows.count k) := by
  unfold groupCount
  constructor
  · intro h
    rcases List.mem_map.mp h with ⟨k', hk', hkk⟩
    have hfst : k' = k := congrArg Prod.fst hkk
    subst hfst
    have hsnd : rows.count k' = n := congrArg Prod.snd hkk
    have hmem := (List.mem_insertionSort _).mp hk'
    rw [List.mem_filter] at hmem
    refine ⟨List.mem_dedup.mp hmem.1, ?_, hsnd.symm⟩
    have h2 := hmem.2
    simpa using h2
  · rintro ⟨hmem, hnn, rfl⟩
    apply List.mem_map.mpr
    refine ⟨k, ?_, rfl⟩
    apply (List.mem_insertionSort _).mpr
    rw [List.mem_filter]
    exact ⟨List.mem_dedup.mpr hmem, by simpa using hnn⟩

/-! ### Concrete frames used by the claim theorems and witnesses -/

def dfTextPQ : DataFrame :=
  ⟨3, [⟨"a", DType.dtObject, [Value.vstr "p", Value.vstr "q", Value.vstr "q"]⟩]⟩

def dfTextZ : DataFrame := ⟨1, [⟨"a", DType.dtObject, [Value.vstr "z"]⟩]⟩

def dfStrOne : DataFrame := ⟨1, [⟨"v", DType.dtObject, [Value.vstr "1"]⟩]⟩

def dfNumOne : DataFrame := ⟨1, [⟨"v", DType.dtNumeric, [Value.vnum 1]⟩]⟩

def dfDateText : DataFrame := ⟨1, [⟨"date", DType.dtObject, [Value.vstr "2024-01-01"]⟩]⟩

def dfDateTyped : DataFrame := ⟨1, [⟨"date", DType.dtDatetime, [Value.vdate 20240101]⟩]⟩

def dfIdDup : DataFrame :=
  ⟨3, [⟨"id", DType.dtNumeric, [Value.vnum 1, Value.vnum 1, Value.vnum 2]⟩]⟩

def dfNullDup : DataFrame := ⟨2, [⟨"id", DType.dtObject, [Value.vnull, Value.vnull]⟩]⟩

def dfCost : DataFrame :=
  ⟨3, [⟨"cost", DType.dtNumeric, [Value.vnum 10, Value.vnum (-5), Value.vnum 0]⟩]⟩

def dfXX : DataFrame := ⟨2, [⟨"a", DType.dtObject, [Value.vstr "x", Value.vstr "x"]⟩]⟩

def dfX : DataFrame := ⟨1, [⟨"a", DType.dtObject, [Value.vstr "x"]⟩]⟩

def dfXY : DataFrame := ⟨2, [⟨"a", DType.dtObject, [Value.vstr "x", Value.vstr "y"]⟩]⟩

def dfYX : DataFrame := ⟨2, [⟨"a", DType.dtObject, [Value.vstr "y", Value.vstr "x"]⟩]⟩

def dfNoCols : DataFrame := ⟨2, []⟩

def demoDf : DataFrame := ⟨1, [⟨"x", DType.dtNumeric, [Value.vnum 1]⟩]⟩

def fsDemo : FileSystem :=
  { pathExists := fun p => p != "missing"
  , isFile := fun p => p == "file.parquet"
  , isDir := fun p => p == "dir" || p == "emptydir"
  , walk := fun p =>
      if p == "dir" then [⟨"dir", ["day=2024-01-01"], ["bad.parquet"]⟩] else []
  , readParquet := fun p => if p == "good.parquet" then Except.ok demoDf else Except.error "corrupt"
  , joinPath := fun a b => a ++ "/" ++ b }

/-! ### C8 -/

/-- C8 counterexample: a frame with two index rows and zero columns has a
positive row count, yet `check_dataset_is_not_empty` fails, because pandas
`DataFrame.empty` is true whenever ANY axis has length zero. -/
theorem C8_counterexample :
    0 < dfNoCols.nRows ∧
    check_dataset_is_not_empty dfNoCols = Except.error "DataFrame is empty" :=
  ⟨by decide, rfl⟩

/-- C8 (amended): `check_dataset_is_not_empty` passes iff both the row count
and the column count are positive — pandas `DataFrame.empty` is true when
any axis has length zero, so a zero-column frame fails regardless of its
index length. -/
theorem C8_not_empty_iff (df : DataFrame) :
    check_dataset_is_not_empty df = Except.ok () ↔ (0 < df.nRows ∧ df.cols ≠ []) := by
  unfold check_dataset_is_not_empty DataFrame.empty
  rcases df with ⟨n, cls⟩
  dsimp only
  cases n with
  | zero => simp
  | succ m =>
    cases cls with
    | nil => simp
    | cons c t => simp

/-! ### C3 -/

/-- C3: when a requested comparison column is absent from either frame,
`check_data_full_data_set` fails with a schema (missing column) error raised
by the type-alignment loop, before any row-level comparison is reached. -/
theorem C3_missing_column_schema_error (df1 df2 : DataFrame) (subset : Option (List String))
    (h : ∃ c ∈ resolveColumns df1 subset, df1.hasCol c = false ∨ df2.hasCol c = false) :
    ∃ e, (check_data_full_data_set df1 df2 subset).1 = Except.error e ∧ e.isSchema = true := by
  obtain ⟨e, d1', d2', heq, hschema⟩ := alignLoop_error_of_missing _ df1 df2 h
  refine ⟨e, ?_, hschema⟩
  simp [check_data_full_data_set, heq]

/-- Witness for C3: the single requested column is absent from df2. -/
theorem C3_witness :
    ∃ e, (check_data_full_data_set dfDateText dfNoCols none).1 = Except.error e ∧
      e.isSchema = true :=
  C3_missing_column_schema_error dfDateText dfNoCols none ⟨"date", by decide, by decide⟩

/-! ### C1 -/

/-- C1 counterexample: a diff report whose groups, in emitted order, carry
the counts 1, 2, 1 — the order is the ascending group-key order, not
descending by count as the claim states. -/
theorem C1_counterexample :
    (check_data_full_data_set dfTextPQ dfTextZ none).1 =
      Except.error (FullSetError.mismatch
        [([Value.vstr "p", Value.vstr "in source not in target"], 1),
         ([Value.vstr "q", Value.vstr "in source not in target"], 2),
         ([Value.vstr "z", Value.vstr "in target not in source"], 1)]) ∧
    ¬ List.Sorted countGe
        [([Value.vstr "p", Value.vstr "in source not in target"], 1),
         ([Value.vstr "q", Value.vstr "in source not in target"], 2),
         ([Value.vstr "z", Value.vstr "in target not in source"], 1)] :=
  ⟨rfl, by decide⟩

/-- C1 (amended): every diff report emitted by `check_data_full_data_set` is
ordered ascending by group key (the pandas groupby key order over the
compared column values plus provenance label), not by descending count. -/
theorem C1_groups_sorted_by_key (df1 df2 : DataFrame) (subset : Option (List String))
    (gs : List (List Value × Nat))
    (h : (check_data_full_data_set df1 df2 subset).1 =
      Except.error (FullSetError.mismatch gs)) :
    List.Sorted (fun a b => a ≤ b) (gs.map Prod.fst) := by
  obtain ⟨rows, hg⟩ := fullset_mismatch_groupCount df1 df2 subset gs h
  rw [hg]
  exact groupCount_fst_sorted rows

/-- Witness for the amended C1 at the counterexample input. -/
theorem C1_groups_sorted_by_key_witness :
    List.Sorted (fun a b => a ≤ b)
      (([([Value.vstr "p", Value.vstr "in source not in target"], 1),
         ([Value.vstr "q", Value.vstr "in source not in target"], 2),
         ([Value.vstr "z", Value.vstr "in target not in source"], 1)] :
        List (List Value × Nat)).map Prod.fst) :=
  C1_groups_sorted_by_key dfTextPQ dfTextZ none _ rfl

/-! ### C10 and C5 -/

/-- Key shared step: when the projected tuples of each (yet uncoerced) frame
all occur in the other frame, the full-dataset check passes — the coercion is
applied identically to both sides, so tuple membership transfers along it. -/
theorem fullset_ok_of_mem_exchange (df1 df2 : DataFrame) (subset : Option (List String))
    (hw1 : df1.wf) (hw2 : df2.wf)
    (hnd : (resolveColumns df1 subset).Nodup)
    (h1 : ∀ c ∈ resolveColumns df1 subset, df1.hasCol c = true)
    (h2 : ∀ c ∈ resolveColumns df1 subset, df2.hasCol c = true)
    (hab : ∀ r ∈ df1.projRows (resolveColumns df1 subset),
      r ∈ df2.projRows (resolveColumns df1 subset))
    (hba : ∀ r ∈ df2.projRows (resolveColumns df1 subset),
      r ∈ df1.projRows (resolveColumns df1 subset)) :
    (check_data_full_data_set df1 df2 subset).1 = Except.ok () := by
  obtain ⟨d1', d2', heq, hn1, hn2, hr1, hr2, _, hin⟩ :=
    alignLoop_no_error _ df1 df2 h1 h2 hnd
  have p1 : d1'.projRows (resolveColumns df1 subset) =
      (df1.projRows (resolveColumns df1 subset)).map
        (fun r => List.zipWith (fun c v => coerceVal (coercionFor df1 df2 c) v)
          (resolveColumns df1 subset) r) :=
    projRows_of_mapped hr1 (fun c hc => (hin c hc).1)
      (fun c hc => colValues_length_of_wf hw1 (h1 c hc))
  have p2 : d2'.projRows (resolveColumns df1 subset) =
      (df2.projRows (resolveColumns df1 subset)).map
        (fun r => List.zipWith (fun c v => coerceVal (coercionFor df1 df2 c) v)
          (resolveColumns df1 subset) r) :=
    projRows_of_mapped hr2 (fun c hc => (hin c hc).2.1)
      (fun c hc => colValues_length_of_wf hw2 (h2 c hc))
  apply fullset_ok_of_filters_nil df1 df2 subset heq
  · rw [List.filter_eq_nil_iff]
    intro a ha
    rw [p1] at ha
    rcases List.mem_map.mp ha with ⟨r0, hr0, rfl⟩
    simp only [decide_eq_true_eq, not_not]
    rw [p2]
    exact List.mem_map_of_mem _ (hab r0 hr0)
  · rw [List.filter_eq_nil_iff]
    intro a ha
    rw [p2] at ha
    rcases List.mem_map.mp ha with ⟨r0, hr0, rfl⟩
    simp only [decide_eq_true_eq, not_not]
    rw [p1]
    exact List.mem_map_of_mem _ (hba r0 hr0)

/-- C10: `check_data_full_data_set` compares the two frames as SETS of
projected value tuples, not multisets: equal tuple sets imply a pass, no
matter how often each tuple occurs on either side, so occurrence-count
discrepancies between duplicated rows are never reported by this check. -/
theorem C10_set_semantics (df1 df2 : DataFrame) (subset : Option (List String))
    (hw1 : df1.wf) (hw2 : df2.wf)
    (hnd : (resolveColumns df1 subset).Nodup)
    (h1 : ∀ c ∈ resolveColumns df1 subset, df1.hasCol c = true)
    (h2 : ∀ c ∈ resolveColumns df1 subset, df2.hasCol c = true)
    (hab : df1.projRows (resolveColumns df1 subset) ⊆ df2.projRows (resolveColumns df1 subset))
    (hba : df2.projRows (resolveColumns df1 subset) ⊆ df1.projRows (resolveColumns df1 subset)) :
    (check_data_full_data_set df1 df2 subset).1 = Except.ok () :=
  fullset_ok_of_mem_exchange df1 df2 subset hw1 hw2 hnd h1 h2
    (fun _ hr => hab hr) (fun _ hr => hba hr)

/-- Witness for C10: the tuple x occurs twice in the source and once in the
target; the tuple sets agree, so the check passes although the occurrence
counts differ. -/
theorem C10_witness :
    (check_data_full_data_set dfXX dfX none).1 = Except.ok () ∧
    (dfXX.projRows ["a"]).count [Value.vstr "x"] = 2 ∧
    (dfX.projRows ["a"]).count [Value.vstr "x"] = 1 :=
  ⟨C10_set_semantics dfXX dfX none (by decide) (by decide) (by decide)
      (by decide) (by decide) (by decide) (by decide),
    by decide, by decide⟩

/-- C5: when the two frames hold identical rows over the compared columns,
possibly in different row orders (their projected-row multisets coincide),
`check_data_full_data_set` passes and `check_count` passes — row order never
affects either verdict. -/
theorem C5_reordered_rows_pass (df1 df2 : DataFrame) (subset : Option (List String))
    (hw1 : df1.wf) (hw2 : df2.wf)
    (hnd : (resolveColumns df1 subset).Nodup)
    (h1 : ∀ c ∈ resolveColumns df1 subset, df1.hasCol c = true)
    (h2 : ∀ c ∈ resolveColumns df1 subset, df2.hasCol c = true)
    (hperm : (df1.projRows (resolveColumns df1 subset)).Perm
      (df2.projRows (resolveColumns df1 subset))) :
    (check_data_full_data_set df1 df2 subset).1 = Except.ok () ∧
    check_count df1 df2 = Except.ok () := by
  constructor
  · exact fullset_ok_of_mem_exchange df1 df2 subset hw1 hw2 hnd h1 h2
      (fun r hr => hperm.mem_iff.mp hr) (fun r hr => hperm.mem_iff.mpr hr)
  · have hlen := hperm.length_eq
    rw [projRows_length, projRows_length] at hlen
    unfold check_count
    rw [if_pos hlen]

/-- Witness for C5: the same two rows in opposite orders. -/
theorem C5_witness :
    (check_data_full_data_set dfXY dfYX none).1 = Except.ok () ∧
    check_count dfXY dfYX = Except.ok () :=
  C5_reordered_rows_pass dfXY dfYX none (by decide) (by decide) (by decide)
    (by decide) (by decide) (by decide)

/-! ### C4 -/

/-- C4: with every requested column present in both frames, the alignment
loop never raises (failed parses coerce to the null sentinel instead): it
selects one common comparison type per column with priority
datetime > numeric > text from the two dtypes, applies the SAME coercion to
both sides (updating both dtypes alike), and judges the text value
"2024-01-01" equal to the date-typed 20240101. -/
theorem C4_type_alignment (df1 df2 : DataFrame) (subset : Option (List String))
    (hnd : (resolveColumns df1 subset).Nodup)
    (h1 : ∀ c ∈ resolveColumns df1 subset, df1.hasCol c = true)
    (h2 : ∀ c ∈ resolveColumns df1 subset, df2.hasCol c = true) :
    (∃ d1' d2', alignLoop (resolveColumns df1 subset) df1 df2 = (none, d1', d2') ∧
      ∀ c ∈ resolveColumns df1 subset,
        d1'.colValues c = (df1.colValues c).map
          (coerceVal (chooseCompType (df1.dtypeOf c) (df2.dtypeOf c))) ∧
        d2'.colValues c = (df2.colValues c).map
          (coerceVal (chooseCompType (df1.dtypeOf c) (df2.dtypeOf c))) ∧
        d1'.dtypeOf c = resultDType (chooseCompType (df1.dtypeOf c) (df2.dtypeOf c)) ∧
        d2'.dtypeOf c = resultDType (chooseCompType (df1.dtypeOf c) (df2.dtypeOf c))) ∧
    (∀ s, parseDateChars s.data = none → coerceDatetime (Value.vstr s) = Value.vnull) ∧
    (∀ s, parseNumChars s.data = none → coerceNumeric (Value.vstr s) = Value.vnull) ∧
    (check_data_full_data_set dfDateText dfDateTyped none).1 = Except.ok () := by
  refine ⟨?_, ?_, ?_, rfl⟩
  · obtain ⟨d1', d2', heq, _, _, _, _, _, hin⟩ := alignLoop_no_error _ df1 df2 h1 h2 hnd
    exact ⟨d1', d2', heq, fun c hc => (hin c hc)⟩
  · intro s h
    simp [coerceDatetime, h]
  · intro s h
    simp [coerceNumeric, h]

/-- Witness for C4 at the concrete text-vs-date pair. -/
theorem C4_witness :
    ∃ d1' d2', alignLoop (resolveColumns dfDateText none) dfDateText dfDateTyped =
      (none, d1', d2') ∧
    ∀ c ∈ resolveColumns dfDateText none,
      d1'.colValues c = (dfDateText.colValues c).map
        (coerceVal (chooseCompType (dfDateText.dtypeOf c) (dfDateTyped.dtypeOf c))) ∧
      d2'.colValues c = (dfDateTyped.colValues c).map
        (coerceVal (chooseCompType (dfDateText.dtypeOf c) (dfDateTyped.dtypeOf c))) ∧
      d1'.dtypeOf c = resultDType (chooseCompType (dfDateText.dtypeOf c) (dfDateTyped.dtypeOf c)) ∧
      d2'.dtypeOf c = resultDType (chooseCompType (dfDateText.dtypeOf c) (dfDateTyped.dtypeOf c)) :=
  (C4_type_alignment dfDateText dfDateTyped none (by decide) (by decide) (by decide)).1

/-! ### C2 -/

/-- The post-call frames of `check_data_full_data_set` are exactly the frames
the alignment loop left behind: the row-level phase reads but never writes. -/
theorem fullset_snd_eq_align_snd (df1 df2 : DataFrame) (subset : Option (List String)) :
    (check_data_full_data_set df1 df2 subset).2 =
      (alignLoop (resolveColumns df1 subset) df1 df2).2 := by
  rcases halign : alignLoop (resolveColumns df1 subset) df1 df2 with ⟨oe, d1', d2'⟩
  cases oe with
  | some e => simp [check_data_full_data_set, halign]
  | none =>
    simp only [check_data_full_data_set, halign]
    split <;> rfl

/-- When every step of the alignment loop is the identity coercion — object
dtype on both sides and only string values, so `astype(str)` changes nothing
— the loop leaves both frames untouched (also when it stops early with a
schema error). -/
theorem alignLoop_identity : ∀ (cs : List String) (d1 d2 : DataFrame),
    d1.colNames.Nodup → d2.colNames.Nodup →
    (∀ c ∈ cs, d1.dtypeOf c = DType.dtObject) →
    (∀ c ∈ cs, d2.dtypeOf c = DType.dtObject) →
    (∀ c ∈ cs, ∀ v ∈ d1.colValues c, ∃ s, v = Value.vstr s) →
    (∀ c ∈ cs, ∀ v ∈ d2.colValues c, ∃ s, v = Value.vstr s) →
    (alignLoop cs d1 d2).2 = (d1, d2) := by
  intro cs
  induction cs with
  | nil => intro d1 d2 _ _ _ _ _ _; rfl
  | cons c rest ih =>
    intro d1 d2 hnd1 hnd2 ht1 ht2 hs1 hs2
    by_cases hc2 : d2.hasCol c = true
    · by_cases hc1 : d1.hasCol c = true
      · have hct : chooseCompType (d1.dtypeOf c) (d2.dtypeOf c) = CompType.ctText := by
          rw [ht1 c (List.mem_cons_self c rest), ht2 c (List.mem_cons_self c rest)]
          rfl
        have hid1 : (d1.colValues c).map (coerceVal CompType.ctText) = d1.colValues c := by
          have hall : ∀ v ∈ d1.colValues c, coerceVal CompType.ctText v = id v := by
            intro v hv
            obtain ⟨s, rfl⟩ := hs1 c (List.mem_cons_self c rest) v hv
            rfl
          rw [List.map_congr_left hall, List.map_id]
        have hid2 : (d2.colValues c).map (coerceVal CompType.ctText) = d2.colValues c := by
          have hall : ∀ v ∈ d2.colValues c, coerceVal CompType.ctText v = id v := by
            intro v hv
            obtain ⟨s, rfl⟩ := hs2 c (List.mem_cons_self c rest) v hv
            rfl
          rw [List.map_congr_left hall, List.map_id]
        have hset1 : d1.setCol c DType.dtObject (d1.colValues c) = d1 := by
          rcases Option.isSome_iff_exists.mp hc1 with ⟨col, hcol⟩
          have hname := name_of_getCol hcol
          have hvals : d1.colValues c = col.values := by
            unfold DataFrame.colValues
            rw [hcol]
            rfl
          have hdt : col.dtype = DType.dtObject := by
            have hob := ht1 c (List.mem_cons_self c rest)
            unfold DataFrame.dtypeOf at hob
            rw [hcol] at hob
            exact hob
          rw [hvals, ← hdt, ← hname]
          exact setCol_self hnd1 (mem_of_getCol hcol)
        have hset2 : d2.setCol c DType.dtObject (d2.colValues c) = d2 := by
          rcases Option.isSome_iff_exists.mp hc2 with ⟨col, hcol⟩
          have hname := name_of_getCol hcol
          have hvals : d2.colValues c = col.values := by
            unfold DataFrame.colValues
            rw [hcol]
            rfl
          have hdt : col.dtype = DType.dtObject := by
            have hob := ht2 c (List.mem_cons_self c rest)
            unfold DataFrame.dtypeOf at hob
            rw [hcol] at hob
            exact hob
          rw [hvals, ← hdt, ← hname]
          exact setCol_self hnd2 (mem_of_getCol hcol)
        have hstep : alignLoop (c :: rest) d1 d2 = alignLoop rest d1 d2 := by
          rw [alignLoop, if_pos hc2, if_pos hc1]
          simp only [hct, resultDType, hid1, hid2, hset1, hset2]
        rw [hstep]
        exact ih d1 d2 hnd1 hnd2
          (fun x hx => ht1 x (List.mem_cons_of_mem c hx))
          (fun x hx => ht2 x (List.mem_cons_of_mem c hx))
          (fun x hx => hs1 x (List.mem_cons_of_mem c hx))
          (fun x hx => hs2 x (List.mem_cons_of_mem c hx))
      · rw [alignLoop, if_pos hc2, if_neg hc1]
    · rw [alignLoop, if_neg hc2]

/-- C2 counterexample: a passing call of `check_data_full_data_set` coerces
the text column of the caller frame in place — afterwards the source frame
holds the numeric 1 where it held the string "1", so the caller frames are
NOT left unchanged. -/
theorem C2_counterexample :
    (check_data_full_data_set dfStrOne dfNumOne none).1 = Except.ok () ∧
    (check_data_full_data_set dfStrOne dfNumOne none).2.1 ≠ dfStrOne ∧
    (check_data_full_data_set dfStrOne dfNumOne none).2.1 =
      ⟨1, [⟨"v", DType.dtNumeric, [Value.vnum 1]⟩]⟩ :=
  ⟨rfl, by decide, rfl⟩

/-- C2 (amended): `check_data_full_data_set` writes the coerced comparison
columns back into the caller frames, so the post-call frames are the aligned
frames and may differ from the inputs; they are unchanged exactly when every
per-column coercion is the identity — in particular whenever each compared
column has object dtype on both sides and holds only strings. -/
theorem C2_text_frames_unchanged (df1 df2 : DataFrame) (subset : Option (List String))
    (hnd1 : df1.colNames.Nodup) (hnd2 : df2.colNames.Nodup)
    (ht1 : ∀ c ∈ resolveColumns df1 subset, df1.dtypeOf c = DType.dtObject)
    (ht2 : ∀ c ∈ resolveColumns df1 subset, df2.dtypeOf c = DType.dtObject)
    (hs1 : ∀ c ∈ resolveColumns df1 subset, ∀ v ∈ df1.colValues c, ∃ s, v = Value.vstr s)
    (hs2 : ∀ c ∈ resolveColumns df1 subset, ∀ v ∈ df2.colValues c, ∃ s, v = Value.vstr s) :
    (check_data_full_data_set df1 df2 subset).2 = (df1, df2) := by
  rw [fullset_snd_eq_align_snd]
  exact alignLoop_identity _ df1 df2 hnd1 hnd2 ht1 ht2 hs1 hs2

/-- Witness for the amended C2: two all-string frames come back unchanged. -/
theorem C2_text_frames_unchanged_witness :
    (check_data_full_data_set dfXX dfX none).2 = (dfXX, dfX) :=
  C2_text_frames_unchanged dfXX dfX none (by decide) (by decide) (by decide) (by decide)
    (by
      intro c hc v hv
      rw [show resolveColumns dfXX none = ["a"] from rfl, List.mem_singleton] at hc
      subst hc
      rw [show dfXX.colValues "a" = [Value.vstr "x", Value.vstr "x"] from rfl,
        List.mem_cons, List.mem_cons] at hv
      rcases hv with rfl | rfl | hv
      · exact ⟨"x", rfl⟩
      · exact ⟨"x", rfl⟩
      · exact absurd hv (List.not_mem_nil v))
    (by
      intro c hc v hv
      rw [show resolveColumns dfXX none = ["a"] from rfl, List.mem_singleton] at hc
      subst hc
      rw [show dfX.colValues "a" = [Value.vstr "x"] from rfl, List.mem_cons] at hv
      rcases hv with rfl | hv
      · exact ⟨"x", rfl⟩
      · exact absurd hv (List.not_mem_nil v))

/-! ### C6 -/

/-- The columns `check_duplicates` actually groups by (Python falsiness of
the optional list picks all columns for None or an empty list). -/
def dupCols (df : DataFrame) (column_names : Option (List String)) : List String :=
  match column_names with
  | some l => if l.isEmpty then df.colNames else l
  | none => df.colNames

theorem check_duplicates_eq_branch (df : DataFrame) (column_names : Option (List String)) :
    check_duplicates df column_names = dupBranch df (dupCols df column_names) := by
  cases column_names with
  | none => rfl
  | some l =>
    by_cases hl : l.isEmpty
    · simp [check_duplicates, dupCols, hl]
    · simp [check_duplicates, dupCols, hl]

theorem dup_find_none (df : DataFrame) (cols : List String)
    (hcols : ∀ c ∈ cols, df.hasCol c = true) :
    cols.find? (fun c => !df.hasCol c) = none := by
  rw [List.find?_eq_none]
  intro c hc
  rw [hcols c hc]
  simp

theorem dupBranch_ok_iff (df : DataFrame) (cols : List String)
    (hcols : ∀ c ∈ cols, df.hasCol c = true) :
    dupBranch df cols = Except.ok () ↔
      ∀ r ∈ df.projRows cols, (df.projRows cols).count r ≤ 1 := by
  unfold dupBranch
  rw [dup_find_none df cols hcols]
  dsimp only
  by_cases hd : ((df.projRows cols).filter
      (fun r => decide (1 < (df.projRows cols).count r))).isEmpty = true
  · rw [if_pos hd]
    rw [List.isEmpty_iff, List.filter_eq_nil_iff] at hd
    constructor
    · intro _ r hr
      have h := hd r hr
      rw [decide_eq_true_eq, Nat.not_lt] at h
      exact h
    · intro _
      rfl
  · rw [if_neg hd]
    constructor
    · intro h
      exact absurd h (by simp)
    · intro hall
      exfalso
      apply hd
      rw [List.isEmpty_iff, List.filter_eq_nil_iff]
      intro r hr
      rw [decide_eq_true_eq, Nat.not_lt]
      exact hall r hr

theorem dupBranch_error_groups (df : DataFrame) (cols : List String)
    (hcols : ∀ c ∈ cols, df.hasCol c = true) (gs : List (List Value × Nat))
    (h : dupBranch df cols = Except.error (DupError.duplicates gs)) :
    gs = (groupCount ((df.projRows cols).filter
      (fun r => decide (1 < (df.projRows cols).count r)))).insertionSort countGe := by
  unfold dupBranch at h
  rw [dup_find_none df cols hcols] at h
  dsimp only at h
  split at h
  · exact absurd h (by simp)
  · simp only [Except.error.injEq, DupError.duplicates.injEq] at h
    exact h.symm

theorem dup_groups_char (df : DataFrame) (cols : List String)
    (hnn : ∀ r ∈ df.projRows cols, Value.vnull ∉ r) (k : List Value) (n : Nat) :
    ((k, n) ∈ (groupCount ((df.projRows cols).filter
        (fun r => decide (1 < (df.projRows cols).count r)))).insertionSort countGe) ↔
      (1 < (df.projRows cols).count k ∧ n = (df.projRows cols).count k) := by
  rw [List.mem_insertionSort, mem_groupCount]
  constructor
  · rintro ⟨hmem, _, rfl⟩
    rw [List.mem_filter] at hmem
    have hgt : 1 < (df.projRows cols).count k := by
      have h := hmem.2
      rwa [decide_eq_true_eq] at h
    refine ⟨hgt, ?_⟩
    exact List.count_filter hmem.2
  · rintro ⟨hgt, rfl⟩
    have hmem : k ∈ df.projRows cols := List.count_pos_iff.mp (by omega)
    refine ⟨List.mem_filter.mpr ⟨hmem, by simpa using hgt⟩, hnn k hmem, ?_⟩
    rw [List.count_filter (by simpa using hgt)]

/-- C6 counterexample: the all-null tuple occurs twice, so the frame holds a
duplicated value combination and the check fails, yet the emitted report
contains NO group at all — the pandas groupby drops null group keys — so the
duplicated combination is not reported with its occurrence count. -/
theorem C6_counterexample :
    1 < (dfNullDup.projRows dfNullDup.colNames).count [Value.vnull] ∧
    check_duplicates dfNullDup none = Except.error (DupError.duplicates []) :=
  ⟨by decide, rfl⟩

/-- C6 (amended): `check_duplicates` passes iff no value combination over
the chosen columns occurs more than once; on failure the report groups are
sorted descending by count and consist of EXACTLY the combinations occurring
more than once with their occurrence counts, provided the projected rows
contain no nulls (combinations containing nulls still fail the check but are
omitted from the report); for the rows (1), (1), (2) the report is the
single group ((1), 2). -/
theorem C6_duplicate_groups (df : DataFrame) (column_names : Option (List String))
    (hcols : ∀ c ∈ dupCols df column_names, df.hasCol c = true)
    (hnn : ∀ r ∈ df.projRows (dupCols df column_names), Value.vnull ∉ r) :
    (check_duplicates df column_names = Except.ok () ↔
      ∀ r ∈ df.projRows (dupCols df column_names),
        (df.projRows (dupCols df column_names)).count r ≤ 1) ∧
    (∀ gs, check_duplicates df column_names = Except.error (DupError.duplicates gs) →
      List.Sorted countGe gs ∧
      ∀ k n, ((k, n) ∈ gs ↔
        (1 < (df.projRows (dupCols df column_names)).count k ∧
         n = (df.projRows (dupCols df column_names)).count k))) ∧
    check_duplicates dfIdDup none =
      Except.error (DupError.duplicates [([Value.vnum 1], 2)]) := by
  rw [check_duplicates_eq_branch]
  refine ⟨dupBranch_ok_iff df _ hcols, ?_, rfl⟩
  intro gs hgs
  have hgs2 := dupBranch_error_groups df _ hcols gs hgs
  subst hgs2
  exact ⟨List.sorted_insertionSort countGe _, fun k n => dup_groups_char df _ hnn k n⟩

/-- Witness for the amended C6 at the rows (1), (1), (2). -/
theorem C6_duplicate_groups_witness :
    (check_duplicates dfIdDup none = Except.ok () ↔
      ∀ r ∈ dfIdDup.projRows (dupCols dfIdDup none),
        (dfIdDup.projRows (dupCols dfIdDup none)).count r ≤ 1) ∧
    (∀ gs, check_duplicates dfIdDup none = Except.error (DupError.duplicates gs) →
      List.Sorted countGe gs ∧
      ∀ k n, ((k, n) ∈ gs ↔
        (1 < (dfIdDup.projRows (dupCols dfIdDup none)).count k ∧
         n = (dfIdDup.projRows (dupCols dfIdDup none)).count k))) ∧
    check_duplicates dfIdDup none =
      Except.error (DupError.duplicates [([Value.vnum 1], 2)]) :=
  C6_duplicate_groups dfIdDup none (by decide) (by decide)

/-! ### C7 -/

theorem cvLoop_ok_of_present (df : DataFrame) :
    ∀ (rules : List (String × ColumnRule)) (acc : List (Nat × Value × String)),
    (∀ p ∈ rules, df.hasCol p.1 = true) →
    cvLoop df rules acc =
      Except.ok (acc ++ rules.flatMap (fun p => flaggedRecords df p.1 p.2)) := by
  intro rules
  induction rules with
  | nil =>
    intro acc _
    simp [cvLoop]
  | cons p rest ih =>
    intro acc h
    rcases p with ⟨c, rule⟩
    rw [cvLoop, if_pos (h (c, rule) (List.mem_cons_self _ _))]
    rw [ih (acc ++ flaggedRecords df c rule) (fun q hq => h q (List.mem_cons_of_mem _ hq))]
    rw [List.flatMap_cons, List.append_assoc]

theorem mem_flaggedRecords_iff {df : DataFrame} {c : String} {rule : ColumnRule}
    {i : Nat} {v : Value} {cc : String} :
    ((i, v, cc) ∈ flaggedRecords df c rule) ↔
      (cc = c ∧ i < df.nRows ∧ v = df.cell c i ∧
        ruleInvalid rule (df.cell c i) = true) := by
  unfold flaggedRecords
  constructor
  · intro h
    rcases List.mem_map.mp h with ⟨j, hj, hx⟩
    rw [List.mem_filter, List.mem_range] at hj
    cases hx
    exact ⟨rfl, hj.1, rfl, hj.2⟩
  · rintro ⟨rfl, h2, rfl, h4⟩
    apply List.mem_map.mpr
    exact ⟨i, List.mem_filter.mpr ⟨List.mem_range.mpr h2, h4⟩, rfl⟩

theorem flaggedRecords_nodup (df : DataFrame) (c : String) (rule : ColumnRule) :
    (flaggedRecords df c rule).Nodup := by
  unfold flaggedRecords
  apply List.Nodup.map
  · intro a b hab
    exact congrArg Prod.fst hab
  · exact (List.nodup_range _).filter _

theorem cvFlat_nodup (df : DataFrame) : ∀ (rules : List (String × ColumnRule)),
    (rules.map Prod.fst).Nodup →
    (rules.flatMap (fun p => flaggedRecords df p.1 p.2)).Nodup := by
  intro rules
  induction rules with
  | nil =>
    intro _
    simp
  | cons p rest ih =>
    intro h
    rw [List.map_cons, List.nodup_cons] at h
    rw [List.flatMap_cons]
    apply List.Nodup.append (flaggedRecords_nodup df p.1 p.2) (ih h.2)
    rintro ⟨i, v, cc⟩ hx1 hx2
    have e1 := (mem_flaggedRecords_iff.mp hx1).1
    rcases List.mem_flatMap.mp hx2 with ⟨q, hq, hxq⟩
    have e2 := (mem_flaggedRecords_iff.mp hxq).1
    have hpq : p.1 = q.1 := e1.symm.trans e2
    have hmem : q.1 ∈ rest.map Prod.fst := List.mem_map_of_mem Prod.fst hq
    rw [← hpq] at hmem
    exact h.1 hmem

theorem mem_cvFlat_iff {df : DataFrame} {rules : List (String × ColumnRule)}
    {i : Nat} {v : Value} {cc : String} :
    ((i, v, cc) ∈ rules.flatMap (fun p => flaggedRecords df p.1 p.2)) ↔
      ∃ rule, (cc, rule) ∈ rules ∧ i < df.nRows ∧ v = df.cell cc i ∧
        ruleInvalid rule v = true := by
  rw [List.mem_flatMap]
  constructor
  · rintro ⟨⟨qc, qr⟩, hq, hxq⟩
    obtain ⟨rfl, h2, rfl, h4⟩ := mem_flaggedRecords_iff.mp hxq
    exact ⟨qr, hq, h2, rfl, h4⟩
  · rintro ⟨rule, hrule, h2, rfl, h4⟩
    exact ⟨(cc, rule), hrule, mem_flaggedRecords_iff.mpr ⟨rfl, h2, rfl, h4⟩⟩

/-- C7: with every rule column present and the rule keys unique,
`check_column_validity` passes iff no row violates any active rule of any
rule column (so a zero-row frame always passes); on failure the emitted
records are exactly one per (row, violating column) pair — a row violating
several columns appears once per column — and the rule with min 0 on the
values 10, -5, 0 flags exactly the row holding -5. -/
theorem C7_column_validity (df : DataFrame) (column_rules : List (String × ColumnRule))
    (hcols : ∀ p ∈ column_rules, df.hasCol p.1 = true)
    (hkeys : (column_rules.map Prod.fst).Nodup) :
    (check_column_validity df column_rules = Except.ok df.emptyLike ↔
      ∀ p ∈ column_rules, ∀ i, i < df.nRows → ruleInvalid p.2 (df.cell p.1 i) = false) ∧
    (∀ recs, check_column_validity df column_rules = Except.error (CVError.invalid recs) →
      recs.Nodup ∧
      ∀ i v c, ((i, v, c) ∈ recs ↔
        ∃ rule, (c, rule) ∈ column_rules ∧ i < df.nRows ∧ v = df.cell c i ∧
          ruleInvalid rule v = true)) ∧
    (df.nRows = 0 → check_column_validity df column_rules = Except.ok df.emptyLike) ∧
    check_column_validity dfCost [("cost", { min? := some (Value.vnum 0) })] =
      Except.error (CVError.invalid [(1, Value.vnum (-5), "cost")]) := by
  have hloop := cvLoop_ok_of_present df column_rules [] hcols
  rw [List.nil_append] at hloop
  have hflat_iff_empty :
      (column_rules.flatMap (fun p => flaggedRecords df p.1 p.2)) = [] ↔
      ∀ p ∈ column_rules, ∀ i, i < df.nRows → ruleInvalid p.2 (df.cell p.1 i) = false := by
    rw [List.flatMap_eq_nil_iff]
    constructor
    · intro h p hp i hi
      have hfl := h p hp
      unfold flaggedRecords at hfl
      rw [List.map_eq_nil_iff, List.filter_eq_nil_iff] at hfl
      have hni := hfl i (List.mem_range.mpr hi)
      simpa using hni
    · intro h p hp
      unfold flaggedRecords
      rw [List.map_eq_nil_iff, List.filter_eq_nil_iff]
      intro i hi
      rw [List.mem_range] at hi
      rw [h p hp i hi]
      simp
  refine ⟨?_, ?_, ?_, rfl⟩
  · unfold check_column_validity
    rw [hloop]
    dsimp only
    by_cases he : (column_rules.flatMap (fun p => flaggedRecords df p.1 p.2)).isEmpty = true
    · rw [if_pos he]
      rw [List.isEmpty_iff] at he
      constructor
      · intro _
        exact hflat_iff_empty.mp he
      · intro _
        rfl
    · rw [if_neg he]
      constructor
      · intro h
        exact absurd h (by simp)
      · intro hall
        exfalso
        apply he
        rw [List.isEmpty_iff]
        exact hflat_iff_empty.mpr hall
  · intro recs hrecs
    unfold check_column_validity at hrecs
    rw [hloop] at hrecs
    dsimp only at hrecs
    split at hrecs
    · exact absurd hrecs (by simp)
    · simp only [Except.error.injEq, CVError.invalid.injEq] at hrecs
      subst hrecs
      exact ⟨cvFlat_nodup df column_rules hkeys, fun i v c => mem_cvFlat_iff⟩
  · intro h0
    unfold check_column_validity
    rw [hloop]
    have hnil : (column_rules.flatMap (fun p => flaggedRecords df p.1 p.2)) = [] :=
      hflat_iff_empty.mpr (fun p hp i hi => absurd hi (by omega))
    rw [hnil]
    rfl

/-- Witness for C7 at the min-0 rule over the values 10, -5, 0. -/
theorem C7_column_validity_witness :
    (check_column_validity dfCost [("cost", { min? := some (Value.vnum 0) })] =
        Except.ok dfCost.emptyLike ↔
      ∀ p ∈ [(("cost" : String), ({ min? := some (Value.vnum 0) } : ColumnRule))],
        ∀ i, i < dfCost.nRows → ruleInvalid p.2 (dfCost.cell p.1 i) = false) ∧
    (∀ recs, check_column_validity dfCost [("cost", { min? := some (Value.vnum 0) })] =
        Except.error (CVError.invalid recs) →
      recs.Nodup ∧
      ∀ i v c, ((i, v, c) ∈ recs ↔
        ∃ rule, (c, rule) ∈ [(("cost" : String), ({ min? := some (Value.vnum 0) } : ColumnRule))] ∧
          i < dfCost.nRows ∧ v = dfCost.cell c i ∧ ruleInvalid rule v = true)) ∧
    (dfCost.nRows = 0 →
      check_column_validity dfCost [("cost", { min? := some (Value.vnum 0) })] =
        Except.ok dfCost.emptyLike) ∧
    check_column_validity dfCost [("cost", { min? := some (Value.vnum 0) })] =
      Except.error (CVError.invalid [(1, Value.vnum (-5), "cost")]) :=
  C7_column_validity dfCost [("cost", { min? := some (Value.vnum 0) })]
    (by decide) (by decide)

/-! ### C9 -/

theorem readEntryFiles_error_shape (fs : FileSystem) (e : WalkEntry) :
    ∀ (files : List String) (dfs : List DataFrame) (err : PqError),
    readEntryFiles fs e files dfs = Except.error err →
    ∃ p m, err = PqError.readFail p m := by
  intro files
  induction files with
  | nil =>
    intro dfs err h
    exact absurd h (by simp [readEntryFiles])
  | cons f rest ih =>
    intro dfs err h
    rw [readEntryFiles] at h
    by_cases hp : isParquetName f = true
    · rw [if_pos hp] at h
      cases hr : fs.readParquet (fs.joinPath e.root f) with
      | error msg =>
        rw [hr] at h
        dsimp only at h
        simp only [Except.error.injEq] at h
        exact ⟨_, _, h.symm⟩
      | ok df =>
        rw [hr] at h
        exact ih _ err h
    · rw [if_neg hp] at h
      exact ih _ err h

theorem readEntryFiles_no_match (fs : FileSystem) (e : WalkEntry) :
    ∀ (files : List String) (dfs : List DataFrame),
    (∀ f ∈ files, isParquetName f = false) →
    readEntryFiles fs e files dfs = Except.ok dfs := by
  intro files
  induction files with
  | nil =>
    intro dfs _
    rfl
  | cons f rest ih =>
    intro dfs h
    rw [readEntryFiles, if_neg (by simp [h f (List.mem_cons_self f rest)])]
    exact ih dfs (fun g hg => h g (List.mem_cons_of_mem f hg))

theorem readWalk_no_match (fs : FileSystem) :
    ∀ (entries : List WalkEntry) (dfs : List DataFrame),
    (∀ e ∈ entries, ∀ f ∈ e.files, isParquetName f = false) →
    readWalk fs entries dfs = Except.ok dfs := by
  intro entries
  induction entries with
  | nil =>
    intro dfs _
    rfl
  | cons e rest ih =>
    intro dfs h
    rw [readWalk, readEntryFiles_no_match fs e e.files dfs (h e (List.mem_cons_self e rest))]
    exact ih dfs (fun x hx => h x (List.mem_cons_of_mem e hx))

theorem readEntryFiles_fail (fs : FileSystem) (e : WalkEntry) :
    ∀ (files : List String) (dfs : List DataFrame),
    (∃ f ∈ files, isParquetName f = true ∧
      ∃ m, fs.readParquet (fs.joinPath e.root f) = Except.error m) →
    ∃ err, readEntryFiles fs e files dfs = Except.error err := by
  intro files
  induction files with
  | nil =>
    intro dfs h
    obtain ⟨f, hf, _⟩ := h
    exact absurd hf (List.not_mem_nil f)
  | cons f rest ih =>
    intro dfs h
    by_cases hp : isParquetName f = true
    · cases hr : fs.readParquet (fs.joinPath e.root f) with
      | error msg =>
        refine ⟨PqError.readFail (fs.joinPath e.root f) msg, ?_⟩
        rw [readEntryFiles, if_pos hp, hr]
      | ok df =>
        obtain ⟨g, hg, hgp, m, hgm⟩ := h
        have hgr : g ∈ rest := by
          rcases List.mem_cons.mp hg with rfl | hgr
          · rw [hr] at hgm
            cases hgm
          · exact hgr
        obtain ⟨err, herr⟩ := ih (dfs ++ [addPartitionCols df e.relSegments])
          ⟨g, hgr, hgp, m, hgm⟩
        refine ⟨err, ?_⟩
        rw [readEntryFiles, if_pos hp, hr]
        exact herr
    · obtain ⟨g, hg, hgp, m, hgm⟩ := h
      have hgr : g ∈ rest := by
        rcases List.mem_cons.mp hg with rfl | hgr
        · exact absurd hgp hp
        · exact hgr
      obtain ⟨err, herr⟩ := ih dfs ⟨g, hgr, hgp, m, hgm⟩
      refine ⟨err, ?_⟩
      rw [readEntryFiles, if_neg hp]
      exact herr

theorem readWalk_error_shape (fs : FileSystem) :
    ∀ (entries : List WalkEntry) (dfs : List DataFrame) (err : PqError),
    readWalk fs entries dfs = Except.error err → ∃ p m, err = PqError.readFail p m := by
  intro entries
  induction entries with
  | nil =>
    intro dfs err h
    exact absurd h (by simp [readWalk])
  | cons e rest ih =>
    intro dfs err h
    rw [readWalk] at h
    cases hres : readEntryFiles fs e e.files dfs with
    | error err2 =>
      rw [hres] at h
      dsimp only at h
      simp only [Except.error.injEq] at h
      subst h
      exact readEntryFiles_error_shape fs e e.files dfs _ hres
    | ok dfs2 =>
      rw [hres] at h
      exact ih dfs2 err h

theorem readWalk_fail (fs : FileSystem) :
    ∀ (entries : List WalkEntry) (dfs : List DataFrame),
    (∃ e ∈ entries, ∃ f ∈ e.files, isParquetName f = true ∧
      ∃ m, fs.readParquet (fs.joinPath e.root f) = Except.error m) →
    ∃ err, readWalk fs entries dfs = Except.error err := by
  intro entries
  induction entries with
  | nil =>
    intro dfs h
    obtain ⟨e, he, _⟩ := h
    exact absurd he (List.not_mem_nil e)
  | cons e rest ih =>
    intro dfs h
    cases hres : readEntryFiles fs e e.files dfs with
    | error err =>
      refine ⟨err, ?_⟩
      rw [readWalk, hres]
    | ok dfs2 =>
      obtain ⟨e', he', hf⟩ := h
      rcases List.mem_cons.mp he' with rfl | hrest
      · obtain ⟨err, herr⟩ := readEntryFiles_fail fs e' e'.files dfs hf
        rw [hres] at herr
        cases herr
      · obtain ⟨err, herr⟩ := ih dfs2 ⟨e', hrest, hf⟩
        refine ⟨err, ?_⟩
        rw [readWalk, hres]
        exact herr

/-- C9: `ParquetReader.process` fails with the FileNotFoundError for every
non-existing path; fails with the no-files RuntimeError for every existing
directory whose walk holds no parquet-named file; and fails with a read
RuntimeError whenever the path is a file whose read fails, or a directory in
whose walk some parquet-named file fails to read.  In every such case the
result is an error — a dataset is never returned. -/
theorem C9_process_errors (fs : FileSystem) (path : String) :
    (fs.pathExists path = false →
      ParquetReader.process fs path = Except.error (PqError.notFound path)) ∧
    (fs.pathExists path = true → fs.isFile path = false → fs.isDir path = true →
      (∀ e ∈ fs.walk path, ∀ f ∈ e.files, isParquetName f = false) →
      ParquetReader.process fs path = Except.error (PqError.noFiles path)) ∧
    (fs.pathExists path = true → fs.isFile path = true →
      ∀ msg, fs.readParquet path = Except.error msg →
      ParquetReader.process fs path = Except.error (PqError.readFail path msg)) ∧
    (fs.pathExists path = true → fs.isFile path = false → fs.isDir path = true →
      (∃ e ∈ fs.walk path, ∃ f ∈ e.files, isParquetName f = true ∧
        ∃ m, fs.readParquet (fs.joinPath e.root f) = Except.error m) →
      ∃ p m, ParquetReader.process fs path = Except.error (PqError.readFail p m)) := by
  refine ⟨?_, ?_, ?_, ?_⟩
  · intro h
    simp [ParquetReader.process, h]
  · intro h1 h2 h3 hno
    have hw := readWalk_no_match fs (fs.walk path) [] hno
    simp [ParquetReader.process, h1, h2, h3, hw]
  · intro h1 h2 msg hr
    simp [ParquetReader.process, h1, h2, hr]
  · intro h1 h2 h3 hbad
    obtain ⟨err, herr⟩ := readWalk_fail fs (fs.walk path) [] hbad
    obtain ⟨p, m, rfl⟩ := readWalk_error_shape fs (fs.walk path) [] err herr
    refine ⟨p, m, ?_⟩
    simp [ParquetReader.process, h1, h2, h3, herr]

/-- Witness for C9 at a concrete filesystem: a missing path, an empty
directory, a corrupt single file, and a directory holding a corrupt parquet
file. -/
theorem C9_process_errors_witness :
    ParquetReader.process fsDemo "missing" = Except.error (PqError.notFound "missing") ∧
    ParquetReader.process fsDemo "emptydir" = Except.error (PqError.noFiles "emptydir") ∧
    ParquetReader.process fsDemo "file.parquet" =
      Except.error (PqError.readFail "file.parquet" "corrupt") ∧
    ∃ p m, ParquetReader.process fsDemo "dir" = Except.error (PqError.readFail p m) :=
  ⟨(C9_process_errors fsDemo "missing").1 rfl,
   (C9_process_errors fsDemo "emptydir").2.1 rfl rfl rfl
     (by
       intro e he
       rw [show fsDemo.walk "emptydir" = [] from rfl] at he
       exact absurd he (List.not_mem_nil e)),
   (C9_process_errors fsDemo "file.parquet").2.2.1 rfl rfl "corrupt" rfl,
   (C9_process_errors fsDemo "dir").2.2.2 rfl rfl rfl
     ⟨⟨"dir", ["day=2024-01-01"], ["bad.parquet"]⟩, by decide, "bad.parquet", by decide,
       by decide, "corrupt", rfl⟩⟩

end DQE
